import Mathlib

/-!
Verification of the session reconciliation and command engine of
`nengo_gui/netgraph.py` (shallow embedding).

Python values relevant to the engine are embedded as follows:

* nengo model objects (`nengo.Node`, `nengo.Ensemble`, `nengo.Network`,
  `nengo.Connection`) become `Obj` records tagged with an `oid` (object
  identity) and an optional class tag (`cls = none` embeds a Python value
  that is an instance of none of the four classes);
* Python values reachable from the engine become `PyVal`: `pynone` is the
  Python `None`, `obj` wraps a model object, `neurons` is a
  `nengo.ensemble.Neurons` handle carrying its `.ensemble` attribute,
  `lrule` is a `nengo.connection.LearningRule` handle carrying its
  `.connection` attribute, and `objview` is a `nengo.base.ObjView`
  carrying its `.obj` attribute;
* Python dicts become ordered association lists (`alistGet` / `alistSet` /
  `alistErase` reproduce `d[k]`, `d[k] = v` and `del d[k]`, keeping
  insertion order the way CPython does);
* functions of the repository that live outside `netgraph.py`
  (`Value.default_output`, `SpaPlot.applicable_targets`, the attribute
  accessors `pre_obj` / `post_obj` / `post` of connections, the
  `expanded` flag stored in the external `Config`) are abstracted as
  environment fields; `netgraph.py` only calls them, never defines them;
* a raised Python exception is an `Option.some` error string threaded out
  of the embedded function (the engine's `_reload` has no handler, so an
  error value models the exception escaping `_reload`).
-/

/-- The four nengo classes the engine distinguishes
(`NameFinder.CLASSES`, the `same_class` loop of `_reload`). -/
inductive NengoClass where
  | node
  | ensemble
  | network
  | connection
deriving DecidableEq, Repr

/-- The shape of a `nengo.Node`'s `output` attribute, as far as
`get_extra_info` inspects it: `is None`, `isinstance(-, OverriddenOutput)`
with `base_output is None` or not, `callable(-)`, and
`hasattr(-, '_nengo_html_')`. -/
structure NodeOutput where
  isNone : Bool
  isOverridden : Bool
  baseOutputIsNone : Bool
  isCallable : Bool
  hasNengoHtml : Bool
deriving DecidableEq, Repr

/-- A nengo model object: identity plus the attributes `netgraph.py`
reads (`output`, `size_out`, `n_neurons`, `label`). -/
structure Obj where
  oid : Nat
  cls : Option NengoClass
  output : NodeOutput
  size_out : Int
  n_neurons : Int
  label : Option String
deriving DecidableEq, Repr

/-- A Python value reachable from the engine (see the module comment). -/
inductive PyVal where
  | pynone : PyVal
  | obj : Obj → PyVal
  | neurons : PyVal → PyVal
  | lrule : PyVal → PyVal
  | objview : PyVal → PyVal
deriving DecidableEq, Repr

/-- `isinstance(v, cls)` for the four nengo classes.  A `Neurons`,
`LearningRule` or `ObjView` handle is an instance of none of them, and
neither is `None`. -/
def isinstanceC (v : PyVal) (c : NengoClass) : Bool :=
  match v with
  | PyVal.obj o => o.cls = some c
  | _ => false

/-- Ordered association list lookup (`k in d` / `d[k]` when present). -/
def alistGet {κ α : Type} [DecidableEq κ] : List (κ × α) → κ → Option α
  | [], _ => none
  | (k, v) :: rest, key => if k = key then some v else alistGet rest key

/-- `d[k] = v`: overwrite in place if the key is present (CPython keeps
the original insertion position), otherwise append. -/
def alistSet {κ α : Type} [DecidableEq κ] : List (κ × α) → κ → α → List (κ × α)
  | [], key, v => [(key, v)]
  | (k, w) :: rest, key, v =>
      if k = key then (k, v) :: rest else (k, w) :: alistSet rest key v

/-- `del d[k]` (no error if absent; the engine always guards deletions). -/
def alistErase {κ α : Type} [DecidableEq κ] : List (κ × α) → κ → List (κ × α)
  | [], _ => []
  | (k, w) :: rest, key =>
      if k = key then rest else (k, w) :: alistErase rest key

namespace NetGraph

/-- The parts of the extra-info computation that live in other modules of
the repository (`nengo_gui.components`): `Value.default_output(obj) is not
None` and `SpaPlot.applicable_targets(obj)`.  `netgraph.py` only calls
them, so they are abstracted as an environment. -/
structure ValueEnv where
  hasDefaultOutput : PyVal → Bool
  spTargets : PyVal → List String

/-- The dict returned by `NetGraph.get_extra_info`, one optional field
per key the Python code may insert (`none` = key absent; Python dict
equality ignores insertion order, which structure equality models). -/
structure ExtraInfo where
  passthrough : Option Bool
  html : Option Bool
  dimensions : Option Int
  n_neurons : Option Int
  default_output : Option Bool
  sp_targets : List String
deriving DecidableEq, Repr

/-- `NetGraph.get_extra_info` (netgraph.py lines 881-904), translated
branch for branch: an `if isinstance(obj, nengo.Node)` /
`elif isinstance(obj, nengo.Ensemble)` /
`elif Value.default_output(obj) is not None` chain, with
`info['sp_targets']` set for every object at the end. -/
def get_extra_info (env : ValueEnv) (v : PyVal) : ExtraInfo :=
  if isinstanceC v NengoClass.node then
    match v with
    | PyVal.obj o =>
        { passthrough :=
            if o.output.isNone ∨ (o.output.isOverridden ∧ o.output.baseOutputIsNone)
            then some true else none
          html :=
            if o.output.isCallable ∧ o.output.hasNengoHtml
            then some true else none
          dimensions := some o.size_out
          n_neurons := none
          default_output := none
          sp_targets := env.spTargets v }
    | _ =>
        { passthrough := none, html := none, dimensions := none,
          n_neurons := none, default_output := none,
          sp_targets := env.spTargets v }
  else if isinstanceC v NengoClass.ensemble then
    match v with
    | PyVal.obj o =>
        { passthrough := none
          html := none
          dimensions := some o.size_out
          n_neurons := some o.n_neurons
          default_output := none
          sp_targets := env.spTargets v }
    | _ =>
        { passthrough := none, html := none, dimensions := none,
          n_neurons := none, default_output := none,
          sp_targets := env.spTargets v }
  else if env.hasDefaultOutput v then
    { passthrough := none, html := none, dimensions := none,
      n_neurons := none, default_output := some true,
      sp_targets := env.spTargets v }
  else
    { passthrough := none, html := none, dimensions := none,
      n_neurons := none, default_output := none,
      sp_targets := env.spTargets v }

/-- `label.rsplit('.', 1)[1]` guarded by `if '.' in label`
(`NameFinder.label`, lines 71-75). -/
def lastSegment (s : String) : String :=
  if s.contains '.' then (s.splitOn ".").getLastD s else s

/-- The `.label` attribute; only genuine model objects carry one. -/
def pyLabel : PyVal → Option String
  | PyVal.obj o => o.label
  | _ => none

/-- `NameFinder.label` (lines 58-76): the explicit `.label` if set,
otherwise the last path segment of `self.names[obj]`; the dict lookup
raises `KeyError` when the object is unnamed. -/
def labelOf (names : PyVal → Option String) (v : PyVal) : Except String String :=
  match pyLabel v with
  | some l => Except.ok l
  | none =>
      match names v with
      | some n => Except.ok (lastSegment n)
      | none => Except.error "KeyError"

/-- A name-map lookup (`names[obj]`, and the uid accessor used by
`_reload_update_item`, `get_parents`, `create_object` and
`create_connection`); a missing key raises `KeyError`. -/
def uidOf (names : PyVal → Option String) (v : PyVal) : Except String String :=
  match names v with
  | some n => Except.ok n
  | none => Except.error "KeyError"

/-! ## The command log (`undo_stack` / `redo_stack`)

Actions are abstract: the engine stores them and replays their
`apply()` / `undo()` methods but never inspects them, so an action is
embedded as a bare tag and a replay is recorded in a call trace.
`netgraph.py` reads the stacks through the `self.page` alias in
`undo` / `redo` and through `self` in the `netgraph.action` handler;
both name the same per-page log, embedded as one `CommandLog`.
Python stacks are lists with `append` at the end and `pop()` from the
end, kept literally (top of stack = last element). -/

/-- An action tag. -/
abbrev Act := Nat

/-- One replayed method call: `act.undo()` or `act.apply()`. -/
inductive ActCall where
  | undoCall (a : Act)
  | applyCall (a : Act)
deriving DecidableEq, Repr

/-- The undo/redo stacks of action groups. -/
structure CommandLog where
  undo_stack : List (List Act)
  redo_stack : List (List Act)
deriving DecidableEq, Repr

/-- The loop of `NetGraph.undo` (lines 786-789): `re = []`, then
`for act in action: act.undo(); re.insert(0, act)`.  Returns the final
`re` and the `act.undo()` calls in call order. -/
def undoLoop : List Act → List Act → List ActCall → List Act × List ActCall
  | [], re, calls => (re, calls)
  | a :: rest, re, calls => undoLoop rest (a :: re) (calls ++ [ActCall.undoCall a])

/-- `NetGraph.undo` (lines 783-790): if the undo stack is non-empty, pop
the top group, run the loop above, and append the accumulated `re` list
to the redo stack.  An empty stack is a no-op. -/
def undo (s : CommandLog) : CommandLog × List ActCall :=
  match s.undo_stack.getLast? with
  | none => (s, [])
  | some group =>
      let (re, calls) := undoLoop group [] []
      ({ undo_stack := s.undo_stack.dropLast
         redo_stack := s.redo_stack ++ [re] }, calls)

/-- The loop of `NetGraph.redo` (lines 795-798): `un = []`, then
`for act in action: act.apply(); un.insert(0, act)`. -/
def redoLoop : List Act → List Act → List ActCall → List Act × List ActCall
  | [], un, calls => (un, calls)
  | a :: rest, un, calls => redoLoop rest (a :: un) (calls ++ [ActCall.applyCall a])

/-- `NetGraph.redo` (lines 792-799), symmetric to `undo`. -/
def redo (s : CommandLog) : CommandLog × List ActCall :=
  match s.redo_stack.getLast? with
  | none => (s, [])
  | some group =>
      let (un, calls) := redoLoop group [] []
      ({ undo_stack := s.undo_stack ++ [un]
         redo_stack := s.redo_stack.dropLast }, calls)

/-- The tail of the `netgraph.action` handler (lines 440-441):
`self.undo_stack.append([act]); del self.redo_stack[:]`.  Every
dispatched action is pushed as a fresh one-element group. -/
def dispatchAction (s : CommandLog) (act : Act) : CommandLog :=
  { undo_stack := s.undo_stack ++ [[act]], redo_stack := [] }

/-- Replay a call trace against a graph state, given the `apply` and
`undo` semantics of each action. -/
def runCalls {σ : Type} (applyA undoA : Act → σ → σ) : List ActCall → σ → σ
  | [], st => st
  | ActCall.undoCall a :: rest, st => runCalls applyA undoA rest (undoA a st)
  | ActCall.applyCall a :: rest, st => runCalls applyA undoA rest (applyA a st)

/-! ## The engine state -/

/-- The execution state owned by `PageNetwork` (lines 191-270): the last
attempted code, the current locals dict (embedded as an identity token),
the locals of the last error-free execution, and the most recent output
sent on the error channel (`set_error(None)` clears it). -/
structure ExecState where
  code : Option String
  localsId : Nat
  lastGoodLocals : Option Nat
  error : Option String
deriving DecidableEq, Repr

/-- One per-object entry of the external position/size/expanded
configuration.  Modelled from the spec: the config collaborator stores a
position, a size and an expanded flag per object; a fresh entry has no
position or size and is collapsed (`nengo_gui/config.py` is outside
`src/`; `netgraph.py` only reads and writes these three fields). -/
structure CfgEntry where
  pos : Option (Rat × Rat)
  size : Option (Rat × Rat)
  expanded : Bool
deriving DecidableEq, Repr

/-- The fresh-entry default of the external config. -/
def cfgDefault : CfgEntry := { pos := none, size := none, expanded := false }

/-- `self.page.config[obj]` with the external default for unseen keys. -/
def cfgGet (cfg : List (PyVal × CfgEntry)) (k : PyVal) : CfgEntry :=
  (alistGet cfg k).getD cfgDefault

/-- An entry of the outbound event queue `to_be_sent` / a
`client.write_text` payload. -/
inductive Event where
  | remove (uid : String)
  | rename (uid : String) (name : String)
  | reconnect (uid : String) (pres posts : List String)
  | create (uid : String) (label : String) (ty : String)
      (pos : Rat × Rat) (size : Rat × Rat) (parent : Option String)
      (expanded : Option Bool) (extra : ExtraInfo)
  | create_conn (uid : String) (pres posts : List String)
      (parent : Option String)
deriving DecidableEq, Repr

/-- The mutable state of one `NetGraph` session (fields of `NetGraph`
plus the page-level state it reads through `self.page`). -/
structure NG where
  exec : ExecState
  uids : List (String × PyVal)
  parents : List (String × String)
  networks_to_search : List PyVal
  to_be_expanded : List PyVal
  to_be_sent : List Event
  components : List Nat
  config : List (PyVal × CfgEntry)
  save_needed : Bool
deriving DecidableEq, Repr

/-- `NetGraph.act_expand` (lines 801-805): `net = self.uids[uid]` — a
plain dict lookup, raising `KeyError` for an unknown uid — then enqueue
the network for expansion, set its expanded flag and mark the config
dirty (`modified_config` sets `save_needed`). -/
def act_expand (s : NG) (uid : String) : NG × Option String :=
  match alistGet s.uids uid with
  | none => (s, some "KeyError")
  | some net =>
      let s := { s with to_be_expanded := s.to_be_expanded ++ [net] }
      let entry := { (cfgGet s.config net) with expanded := true }
      let s := { s with config := alistSet s.config net entry }
      ({ s with save_needed := true }, none)

/-! ## Script execution (`PageNetwork.execute`) -/

/-- The observable outcome of running the compiled script once inside
the external execution environment: the identity of the fresh locals
dict, whether the script raised (and the traceback reported), and
whether `locals.get('model')` is a `nengo.Network` afterwards.  The two
warning exceptions (`StartedSimulatorException`, `StartedGUIException`)
only write to stdout and leave `errored` false, so they are covered by
`raised = none`. -/
structure ExecInput where
  newLocals : Nat
  raised : Option String
  modelIsNetwork : Bool
deriving DecidableEq, Repr

/-- `PageNetwork.execute` (lines 223-270): reset the locals dict, store
the attempted code, clear the error channel, run the script, report a
traceback if it raised, report a contract violation if no
`nengo.Network` named `model` was bound (only when nothing was already
reported), and record the locals as last-known-good only when no error
occurred.  Source line numbers attached to error reports are dropped by
the embedding. -/
def execute (st : ExecState) (code : String) (inp : ExecInput) : ExecState :=
  let st := { st with localsId := inp.newLocals, code := some code, error := none }
  let (st, errored) :=
    match inp.raised with
    | none => (st, false)
    | some tb => ({ st with error := some tb }, true)
  let (st, errored) :=
    if inp.modelIsNetwork then (st, errored)
    else if errored then (st, errored)
    else ({ st with error := some "Must declare a nengo.Network called model" }, true)
  if errored then st else { st with lastGoodLocals := some st.localsId }

/-! ## The reload pass -/

/-- Everything `_reload` reads from the freshly executed script and from
modules outside `netgraph.py`:

* `evalUid` is `eval(uid, self.page.locals)` against the new bindings
  (`none` embeds a raised exception, caught by the bare `except`);
* `newNames` is the `names` dict of the `NameFinder` built from the new
  bindings; `pageNames` is the previous pass's `self.page.names`;
* `pre_obj`, `post_obj`, `postAttr` are the connection attributes
  `.pre_obj`, `.post_obj` and `.post` (nengo attributes; objects are
  immutable, so one total map covers old and new objects);
* `nodesOf`, `ensemblesOf`, `networksOf` are the network member lists
  walked by `get_parents`;
* `venv` carries the component helpers used by `get_extra_info`. -/
structure ReloadEnv where
  venv : ValueEnv
  evalUid : String → Option PyVal
  newNames : PyVal → Option String
  pageNames : PyVal → Option String
  pre_obj : PyVal → PyVal
  post_obj : PyVal → PyVal
  postAttr : PyVal → PyVal
  nodesOf : PyVal → List PyVal
  ensemblesOf : PyVal → List PyVal
  networksOf : PyVal → List PyVal

/-- The `for n in net.nodes` / `for e in net.ensembles` bodies of
`get_parents` (lines 765-770): record `parents[child_uid] = net_uid` for
each member, raising `KeyError` if a member is unnamed (writes made
before the raise are kept, as in Python). -/
def addParents (names : PyVal → Option String) (net_uid : String) :
    List PyVal → List (String × String) → List (String × String) × Option String
  | [], parents => (parents, none)
  | o :: rest, parents =>
      match names o with
      | none => (parents, some "KeyError")
      | some ou => addParents names net_uid rest (alistSet parents ou net_uid)

/-- The `for n in net.networks` body of `get_parents` (lines 771-774):
as `addParents`, and additionally append each child network to the
search queue. -/
def addNetParents (names : PyVal → Option String) (net_uid : String) :
    List PyVal → List (String × String) → List PyVal →
    List (String × String) × List PyVal × Option String
  | [], parents, queue => (parents, queue, none)
  | o :: rest, parents, queue =>
      match names o with
      | none => (parents, queue, some "KeyError")
      | some ou =>
          addNetParents names net_uid rest (alistSet parents ou net_uid) (queue ++ [o])

/-- The body of one `while` iteration of `get_parents` (lines 765-774):
register the popped network's nodes, ensembles and child networks in the
parent cache (children also join the queue), stopping at the first
unnamed member, whose lookup raises.  Returns the cache and queue as
mutated so far, plus the raised error if any. -/
def bfsBody (env : ReloadEnv) (names : PyVal → Option String) (net_uid : String)
    (net : PyVal) (parents : List (String × String)) (queue : List PyVal) :
    List (String × String) × List PyVal × Option String :=
  match addParents names net_uid (env.nodesOf net) parents with
  | (ps, some e) => (ps, queue, some e)
  | (ps, none) =>
      match addParents names net_uid (env.ensemblesOf net) ps with
      | (ps2, some e) => (ps2, queue, some e)
      | (ps2, none) => addNetParents names net_uid (env.networksOf net) ps2 queue

/-- The `while uid not in self.parents` loop of `get_parents` (lines
762-774): pop the next queued network (`pop(0)` raises `IndexError` on
an empty queue) and register its members' parents via `bfsBody`.  The
Python loop can run forever on cyclic nesting, so the embedding carries
fuel; exhausted fuel is reported like an exception. -/
def bfsNets (env : ReloadEnv) (names : PyVal → Option String) (uid : String) :
    Nat → NG → NG × Option String
  | 0, st => (st, some "nonterminating")
  | fuel + 1, st =>
      if (alistGet st.parents uid).isSome then (st, none)
      else
        match st.networks_to_search with
        | [] => (st, some "IndexError")
        | net :: restQ =>
            match names net with
            | none => ({ st with networks_to_search := restQ }, some "KeyError")
            | some net_uid =>
                match bfsBody env names net_uid net st.parents restQ with
                | (ps, queue, some e) =>
                    ({ st with parents := ps, networks_to_search := queue }, some e)
                | (ps, queue, none) =>
                    bfsNets env names uid fuel
                      { st with parents := ps, networks_to_search := queue }

/-- The `parents = [uid]; while parents[-1] in self.parents: append`
walk of `get_parents` (lines 775-778), fuelled like `bfsNets` because a
cyclic parent map loops forever in Python. -/
def parentChain : Nat → List (String × String) → List String → List String × Option String
  | 0, _, acc => (acc, some "nonterminating")
  | fuel + 1, parents, acc =>
      match acc.getLast? with
      | none => (acc, none)
      | some lastu =>
          match alistGet parents lastu with
          | none => (acc, none)
          | some p => parentChain fuel parents (acc ++ [p])

/-- `NetGraph.get_parents` (lines 761-778): fill the parent cache
breadth-first until `uid` is found, then walk the ancestor chain.
Returns the full chain (callers slice off the root with `[:-1]`). -/
def get_parents (env : ReloadEnv) (names : PyVal → Option String) (fuel : Nat)
    (st : NG) (uid : String) : NG × Except String (List String) :=
  let (st, err) := bfsNets env names uid fuel st
  match err with
  | some e => (st, Except.error e)
  | none =>
      let (chain, err2) := parentChain fuel st.parents [uid]
      match err2 with
      | some e => (st, Except.error e)
      | none => (st, Except.ok chain)

/-- The endpoint normalization performed on the spot by
`_reload_update_item` for a connection's `pre` side (lines 728-729 /
734-735): one `Neurons → .ensemble` unwrap. -/
def normPreCode (env : ReloadEnv) (c : PyVal) : PyVal :=
  match env.pre_obj c with | PyVal.neurons e => e | x => x

/-- The endpoint normalization performed by `_reload_update_item` for a
connection's `post` side (lines 730-733 / 736-739): one
`LearningRule → .connection.post_obj` unwrap followed by one
`Neurons → .ensemble` unwrap; a `LearningRule` surfacing after the
first unwrap is left as is. -/
def normPostCode (env : ReloadEnv) (c : PyVal) : PyVal :=
  let p := match env.post_obj c with | PyVal.lrule g => env.post_obj g | x => x
  match p with | PyVal.neurons e => e | x => x

/-- `NetGraph._reload_update_item` (lines 705-759), returning the
updated state, the `changed` flag, and a raised exception if any.  For a
kept `Node` / `Ensemble` / `Network`: emit `rename` when the display
label changed, and re-enqueue a previously expanded `Network` for
expansion.  For a kept `Connection`: unwrap the endpoints with
`normPreCode` / `normPostCode`, look the four results up in the old and
new name maps, and emit `reconnect` with the new ancestor chains when
either uid pair differs. -/
def reload_update_item (env : ReloadEnv) (fuel : Nat) (st : NG) (uid : String)
    (old_item new_item : PyVal) : NG × Bool × Option String :=
  if isinstanceC old_item NengoClass.node || isinstanceC old_item NengoClass.ensemble
      || isinstanceC old_item NengoClass.network then
    match labelOf env.pageNames old_item with
    | Except.error e => (st, false, some e)
    | Except.ok old_label =>
      match labelOf env.newNames new_item with
      | Except.error e => (st, false, some e)
      | Except.ok new_label =>
        let (st, changed) :=
          if old_label ≠ new_label then
            ({ st with to_be_sent := st.to_be_sent ++ [Event.rename uid new_label] }, true)
          else (st, false)
        if isinstanceC old_item NengoClass.network then
          if (cfgGet st.config old_item).expanded then
            ({ st with to_be_expanded := st.to_be_expanded ++ [new_item] }, true, none)
          else (st, changed, none)
        else (st, changed, none)
  else if isinstanceC old_item NengoClass.connection then
    let old_pre1 := normPreCode env old_item
    let old_post2 := normPostCode env old_item
    let new_pre1 := normPreCode env new_item
    let new_post2 := normPostCode env new_item
    match uidOf env.pageNames old_pre1 with
    | Except.error e => (st, false, some e)
    | Except.ok old_pre =>
      match uidOf env.pageNames old_post2 with
      | Except.error e => (st, false, some e)
      | Except.ok old_post =>
        match uidOf env.newNames new_pre1 with
        | Except.error e => (st, false, some e)
        | Except.ok new_pre =>
          match uidOf env.newNames new_post2 with
          | Except.error e => (st, false, some e)
          | Except.ok new_post =>
            if new_pre ≠ old_pre ∨ new_post ≠ old_post then
              let (st, r1) := get_parents env env.newNames fuel st new_pre
              match r1 with
              | Except.error e => (st, false, some e)
              | Except.ok presFull =>
                let (st, r2) := get_parents env env.newNames fuel st new_post
                match r2 with
                | Except.error e => (st, false, some e)
                | Except.ok postsFull =>
                  ({ st with to_be_sent := st.to_be_sent ++
                      [Event.reconnect uid presFull.dropLast postsFull.dropLast] },
                   true, none)
            else (st, false, none)
  else (st, false, none)

/-- The `same_class` loop of `_reload` (lines 550-555): scan
`(Ensemble, Node, Network, Connection)` for a class of which both items
are instances. -/
def sameClass (nw old : PyVal) : Bool :=
  [NengoClass.ensemble, NengoClass.node, NengoClass.network, NengoClass.connection].any
    (fun c => isinstanceC nw c && isinstanceC old c)

/-- The loop-local accumulators of `_reload`: `removed_uids` (old object
→ retired uid) and `rebuilt_objects` (uids whose dependent components
must be rebuilt). -/
structure ReloadAux where
  removed_uids : List (PyVal × String)
  rebuilt_objects : List String
deriving DecidableEq, Repr

/-- One iteration of the reconciliation loop of `_reload` (lines
534-583) for a previously known `uid ↦ old_item`:

* `new_item = eval(uid, self.page.locals)`, a bare `except` turning any
  raise into `None`;
* `new_uid = name_finder[new_item]` — an unguarded dict lookup on the
  new `NameFinder`, which raises `KeyError` when the evaluated value
  (in particular `None` after a failed `eval`) has no name;
* discard `new_item` when `new_uid != uid`;
* keep the object only if it is non-`None`, of the same class, and of
  equal `get_extra_info`; a kept object is updated through
  `_reload_update_item` and rebound, a rejected one gets a `remove`
  event, is deleted from the snapshot and marked for recreation. -/
def processUid (env : ReloadEnv) (fuel : Nat) (st : NG) (aux : ReloadAux)
    (uid : String) (old_item : PyVal) : NG × ReloadAux × Option String :=
  let new_item0 := match env.evalUid uid with
    | none => PyVal.pynone
    | some v => v
  match env.newNames new_item0 with
  | none => (st, aux, some "KeyError")
  | some new_uid =>
    let new_item := if new_uid = uid then new_item0 else PyVal.pynone
    let same_class := sameClass new_item old_item
    let keep_object : Bool :=
      if new_item = PyVal.pynone then false
      else if !same_class then false
      else if get_extra_info env.venv new_item ≠ get_extra_info env.venv old_item then false
      else true
    if keep_object then
      match reload_update_item env fuel st uid old_item new_item with
      | (st, _, some e) => (st, aux, some e)
      | (st, changed, none) =>
          let aux := if changed then
            { aux with rebuilt_objects := aux.rebuilt_objects ++ [uid] } else aux
          ({ st with uids := alistSet st.uids uid new_item }, aux, none)
    else
      ({ st with to_be_sent := st.to_be_sent ++ [Event.remove uid]
                 uids := alistErase st.uids uid },
       { removed_uids := alistSet aux.removed_uids old_item uid
         rebuilt_objects := aux.rebuilt_objects ++ [uid] },
       none)

/-- The reconciliation loop of `_reload` over a snapshot copy
`dict(self.uids)` taken before the first iteration; an exception escapes
with the partially mutated state, as in Python (there is no handler in
`_reload`). -/
def reloadLoop (env : ReloadEnv) (fuel : Nat) :
    List (String × PyVal) → NG → ReloadAux → NG × ReloadAux × Option String
  | [], st, aux => (st, aux, none)
  | (uid, old_item) :: rest, st, aux =>
      match processUid env fuel st aux uid old_item with
      | (st, aux, some e) => (st, aux, some e)
      | (st, aux, none) => reloadLoop env fuel rest st aux

/-- How one call to `_reload` ended. -/
inductive ReloadResult where
  | noUpdate
  | errored
  | completed
  | crashed (msg : String)
deriving DecidableEq, Repr

/-- The external inputs of one `_reload` call: the watched file's
contents, the sandbox outcome, the new-execution environment, the
`self.page.model` object bound by the script, and the results of the
post-loop collaborators (the rebuilt component list of lines 594-700 and
the reloaded config of line 589, both computed outside the claims under
verification). -/
structure ReloadInput where
  fileContents : String
  execInput : ExecInput
  env : ReloadEnv
  pageModel : PyVal
  newComponents : List Nat
  newConfig : List (PyVal × CfgEntry)
  fuel : Nat

/-- `NetGraph._reload` (lines 498-703):

1. with no `code` argument, read the watched file and return immediately
   when its text equals `self.page.code` (the last *attempted* script);
   an explicit `code` argument skips this check;
2. execute the code; return right after execution when the error channel
   is non-empty, touching nothing else;
3. reset `networks_to_search` to `[model]` and `parents` to `{}`, run
   the reconciliation loop over the old snapshot (an escaping exception
   leaves the partially mutated state), then enqueue the model for
   expansion, adopt the resynchronized component list and reloaded
   config, and store the applied code. -/
def _reload (st : NG) (codeArg : Option String) (inp : ReloadInput) : NG × ReloadResult :=
  let code := match codeArg with | none => inp.fileContents | some c => c
  if codeArg = none ∧ st.exec.code = some inp.fileContents then
    (st, ReloadResult.noUpdate)
  else
    let st := { st with exec := execute st.exec code inp.execInput }
    if st.exec.error.isSome then (st, ReloadResult.errored)
    else
      let st := { st with networks_to_search := [inp.pageModel], parents := [] }
      match reloadLoop inp.env inp.fuel st.uids st ⟨[], []⟩ with
      | (st, _, some e) => (st, ReloadResult.crashed e)
      | (st, _, none) =>
          let st := { st with
            to_be_expanded := st.to_be_expanded ++ [inp.pageModel]
            components := inp.newComponents
            config := inp.newConfig
            exec := { st.exec with code := some code } }
          (st, ReloadResult.completed)

/-! ## Lazy creation (`create_object` / `create_connection`) -/

/-- `NetGraph.create_object` (lines 857-879): look up the object's uid
(`names.uid`), return immediately when the uid is already in the
snapshot, otherwise default the position (to a random point, supplied
here as `rand`) and size, bind the uid, and write a `create` payload to
the client (outbound payloads and the `to_be_sent` queue are one event
stream in the embedding). -/
def create_object (env : ReloadEnv) (st : NG) (obj : PyVal) (ty : String)
    (parent : Option String) (rand : Rat × Rat) : NG × Option String :=
  match env.pageNames obj with
  | none => (st, some "KeyError")
  | some uid =>
    if (alistGet st.uids uid).isSome then (st, none)
    else
      let (pos, st) :=
        match (cfgGet st.config obj).pos with
        | some p => (p, st)
        | none =>
            let entry := { (cfgGet st.config obj) with pos := some rand }
            (rand, { st with config := alistSet st.config obj entry })
      let (size, st) :=
        match (cfgGet st.config obj).size with
        | some z => (z, st)
        | none =>
            let entry := { (cfgGet st.config obj) with size := some (1/10, 1/10) }
            ((1/10, 1/10), { st with config := alistSet st.config obj entry })
      match labelOf env.pageNames obj with
      | Except.error e => (st, some e)
      | Except.ok label =>
        let st := { st with uids := alistSet st.uids uid obj }
        let expanded := if ty = "net" then some (cfgGet st.config obj).expanded else none
        ({ st with to_be_sent := st.to_be_sent ++
            [Event.create uid label ty pos size parent expanded
              (get_extra_info env.venv obj)] }, none)

/-- The post-endpoint normalization performed by `create_connection`
(lines 913-919): one `LearningRule → .connection.post` unwrap with an
`ObjView → .obj` unwrap of its result, followed by one
`Neurons → .ensemble` unwrap. -/
def normPostCreate (env : ReloadEnv) (c : PyVal) : PyVal :=
  let p := match env.post_obj c with
    | PyVal.lrule g => (match env.postAttr g with | PyVal.objview o => o | x => x)
    | x => x
  match p with | PyVal.neurons e => e | x => x

/-- `NetGraph.create_connection` (lines 906-926): look up the
connection's uid, return immediately when it is already in the snapshot,
otherwise unwrap the endpoints (`normPreCode` / `normPostCreate`), look
both up, bind the uid, compute both ancestor chains and write a
connection payload. -/
def create_connection (env : ReloadEnv) (fuel : Nat) (st : NG) (conn : PyVal)
    (parent : Option String) : NG × Option String :=
  match env.pageNames conn with
  | none => (st, some "KeyError")
  | some uid =>
    if (alistGet st.uids uid).isSome then (st, none)
    else
      let pre1 := normPreCode env conn
      let post2 := normPostCreate env conn
      match env.pageNames pre1 with
      | none => (st, some "KeyError")
      | some pre =>
        match env.pageNames post2 with
        | none => (st, some "KeyError")
        | some post =>
          let st := { st with uids := alistSet st.uids uid conn }
          let (st, r1) := get_parents env env.pageNames fuel st pre
          match r1 with
          | Except.error e => (st, some e)
          | Except.ok presFull =>
            let (st, r2) := get_parents env env.pageNames fuel st post
            match r2 with
            | Except.error e => (st, some e)
            | Except.ok postsFull =>
              ({ st with to_be_sent := st.to_be_sent ++
                  [Event.create_conn uid presFull.dropLast postsFull.dropLast parent] },
               none)

/-- Modelled from the spec: the EndpointResolver contract — "a per-unit
handle resolves to its owning Group; a learning-rule handle resolves to
the post-side object of the rule's governing Link (itself recursively
normalized)".  Stated for comparison with the `normPostCode` behaviour
of the source; fuelled because `post_obj` is an arbitrary attribute
map. -/
def specNormalizeEndpoint (env : ReloadEnv) : Nat → PyVal → Option PyVal
  | 0, _ => none
  | _ + 1, PyVal.neurons e => some e
  | fuel + 1, PyVal.lrule c => specNormalizeEndpoint env fuel (env.post_obj c)
  | _ + 1, x => some x

/-- An initial, empty session state. -/
def ngEmpty : NG :=
  { exec := { code := none, localsId := 0, lastGoodLocals := none, error := none }
    uids := [], parents := [], networks_to_search := [], to_be_expanded := []
    to_be_sent := [], components := [], config := [], save_needed := false }

/-! ### Concrete instances used to evaluate the embedding -/

/-- A node output with no behaviour (`output is None`). -/
def outNone : NodeOutput :=
  { isNone := true, isOverridden := false, baseOutputIsNone := false,
    isCallable := false, hasNengoHtml := false }

/-- A component environment in which `Value.default_output` is non-`None`
for every object and no object has display targets. -/
def venv0 : ValueEnv := { hasDefaultOutput := fun _ => true, spTargets := fun _ => [] }

/-- A concrete `nengo.Node`. -/
def node0 : Obj :=
  { oid := 0, cls := some NengoClass.node, output := outNone,
    size_out := 1, n_neurons := 0, label := none }

/-- A concrete `nengo.Ensemble`. -/
def ens0 : Obj :=
  { oid := 1, cls := some NengoClass.ensemble, output := outNone,
    size_out := 1, n_neurons := 10, label := none }

/-- A concrete `nengo.Connection`. -/
def conn0 : Obj :=
  { oid := 2, cls := some NengoClass.connection, output := outNone,
    size_out := 1, n_neurons := 0, label := none }

/-- A reload environment in which every `eval` raises and the new name
finder names nothing (in particular the Python `None` carries no
name). -/
def env1 : ReloadEnv :=
  { venv := venv0
    evalUid := fun _ => none
    newNames := fun _ => none
    pageNames := fun _ => none
    pre_obj := fun _ => PyVal.pynone
    post_obj := fun _ => PyVal.pynone
    postAttr := fun _ => PyVal.pynone
    nodesOf := fun _ => []
    ensemblesOf := fun _ => []
    networksOf := fun _ => [] }

/-- A session that knows the uid `model.a` from the previous pass and
whose last execution (of script text `W`) succeeded. -/
def st1 : NG :=
  { ngEmpty with
    uids := [("model.a", PyVal.obj ens0)]
    exec := { code := some "W", localsId := 1, lastGoodLocals := some 1, error := none } }

/-- A reload input whose script execution succeeds but in which the path
`model.a` no longer evaluates (the bare `except` turns the raise into
`None`). -/
def inp1 : ReloadInput :=
  { fileContents := "Y"
    execInput := { newLocals := 2, raised := none, modelIsNetwork := true }
    env := env1, pageModel := PyVal.pynone, newComponents := [], newConfig := []
    fuel := 3 }

/-- A session whose last (successful) execution applied script text
`X`. -/
def st7 : NG :=
  { ngEmpty with
    exec := { code := some "X", localsId := 1, lastGoodLocals := some 1, error := none } }

/-- A reload input that re-supplies the identical script text `X`. -/
def inp7 : ReloadInput :=
  { fileContents := "X"
    execInput := { newLocals := 7, raised := none, modelIsNetwork := true }
    env := env1, pageModel := PyVal.pynone, newComponents := [], newConfig := []
    fuel := 3 }

/-- A reload input whose script execution raises. -/
def inp8 : ReloadInput :=
  { fileContents := "Z"
    execInput := { newLocals := 9, raised := some "tb", modelIsNetwork := true }
    env := env1, pageModel := PyVal.pynone, newComponents := [], newConfig := []
    fuel := 3 }

/-- The pre-side ensemble of the connection pair below. -/
def aEns : Obj :=
  { oid := 30, cls := some NengoClass.ensemble, output := outNone,
    size_out := 1, n_neurons := 5, label := none }

/-- The canonical post-side ensemble of the connection pair below. -/
def bEns : Obj :=
  { oid := 31, cls := some NengoClass.ensemble, output := outNone,
    size_out := 1, n_neurons := 5, label := none }

/-- A learning-rule-carrying connection whose own post is again a
learning rule. -/
def cConn : Obj :=
  { oid := 40, cls := some NengoClass.connection, output := outNone,
    size_out := 1, n_neurons := 0, label := none }

/-- The governing connection of the inner learning rule; its post is the
ensemble `bEns`. -/
def c2Conn : Obj :=
  { oid := 41, cls := some NengoClass.connection, output := outNone,
    size_out := 1, n_neurons := 0, label := none }

/-- The reconciled connection's old incarnation: its post is the
learning rule of `cConn`. -/
def oldConn : Obj :=
  { oid := 50, cls := some NengoClass.connection, output := outNone,
    size_out := 1, n_neurons := 0, label := none }

/-- The reconciled connection's new incarnation: its post is `bEns`
directly. -/
def newConn : Obj :=
  { oid := 51, cls := some NengoClass.connection, output := outNone,
    size_out := 1, n_neurons := 0, label := none }

/-- An environment with a doubly nested learning-rule post endpoint:
`oldConn.post_obj` is the learning rule of `cConn`, whose governing
connection's `post_obj` is again a learning rule (of `c2Conn`), which in
turn posts into the ensemble `bEns`; the new incarnation `newConn` posts
into `bEns` directly.  The inner learning-rule handle is bound to the
top-level name `my_lr` in the previous pass. -/
def env2 : ReloadEnv :=
  { venv := venv0
    evalUid := fun _ => none
    newNames := fun v =>
      if v = PyVal.obj aEns then some "a"
      else if v = PyVal.obj bEns then some "b" else none
    pageNames := fun v =>
      if v = PyVal.obj aEns then some "a"
      else if v = PyVal.obj bEns then some "b"
      else if v = PyVal.lrule (PyVal.obj c2Conn) then some "my_lr" else none
    pre_obj := fun v =>
      if v = PyVal.obj oldConn then PyVal.obj aEns
      else if v = PyVal.obj newConn then PyVal.obj aEns else PyVal.pynone
    post_obj := fun v =>
      if v = PyVal.obj oldConn then PyVal.lrule (PyVal.obj cConn)
      else if v = PyVal.obj cConn then PyVal.lrule (PyVal.obj c2Conn)
      else if v = PyVal.obj c2Conn then PyVal.obj bEns
      else if v = PyVal.obj newConn then PyVal.obj bEns else PyVal.pynone
    postAttr := fun _ => PyVal.pynone
    nodesOf := fun _ => []
    ensemblesOf := fun _ => []
    networksOf := fun _ => [] }

/-- A session whose parent cache already holds both endpoints. -/
def st2 : NG :=
  { ngEmpty with parents := [("a", "model"), ("b", "model")] }

/-- An environment naming the concrete ensemble `ens0` and connection
`conn0`. -/
def env4 : ReloadEnv :=
  { env1 with pageNames := fun v =>
      if v = PyVal.obj ens0 then some "e"
      else if v = PyVal.obj conn0 then some "c" else none }

/-- A session that already exposes `ens0` and `conn0`. -/
def stw : NG :=
  { ngEmpty with uids := [("e", PyVal.obj ens0), ("c", PyVal.obj conn0)] }

end NetGraph

open NetGraph

/-! ## Helper lemmas -/

theorem undoLoop_spec (g : List Act) : ∀ re calls,
    undoLoop g re calls = (g.reverse ++ re, calls ++ g.map ActCall.undoCall) := by
  induction g with
  | nil => intro re calls; simp [undoLoop]
  | cons a rest ih => intro re calls; simp [undoLoop, ih]

theorem redoLoop_spec (g : List Act) : ∀ un calls,
    redoLoop g un calls = (g.reverse ++ un, calls ++ g.map ActCall.applyCall) := by
  induction g with
  | nil => intro un calls; simp [redoLoop]
  | cons a rest ih => intro un calls; simp [redoLoop, ih]

theorem alistGet_set {κ α : Type} [DecidableEq κ] (l : List (κ × α)) (k : κ) (v : α) :
    alistGet (alistSet l k v) k = some v := by
  induction l with
  | nil => simp [alistGet, alistSet]
  | cons p rest ih =>
      by_cases h : p.1 = k
      · simp [alistSet, alistGet, h]
      · simp [alistSet, alistGet, h, ih]

/-! ## C3: undo/redo group order -/

/-- **C3 amended**: `undo()` pops the top group `[a1, ..., an]`, invokes
each action's `undo()` in *forward* order `a1, ..., an`, and pushes the
*reversed* group `[an, ..., a1]` onto the redo stack; `redo()`
symmetrically pops the top redo group, invokes each stored action's
`apply()` in the stored order, and pushes the reversed stored group onto
the undo stack. -/
theorem C3_undo_redo_group_order (us rs : List (List Act)) (g : List Act) :
    undo { undo_stack := us ++ [g], redo_stack := rs } =
      ({ undo_stack := us, redo_stack := rs ++ [g.reverse] }, g.map ActCall.undoCall) ∧
    redo { undo_stack := us, redo_stack := rs ++ [g] } =
      ({ undo_stack := us ++ [g.reverse], redo_stack := rs }, g.map ActCall.applyCall) := by
  constructor
  · simp [undo, undoLoop_spec]
  · simp [redo, redoLoop_spec]

/-- **C3 counterexample**: on the two-action group `[1, 2]`, the code
invokes `1.undo()` before `2.undo()` and pushes `[2, 1]` onto the redo
stack, while the claim demands the inverse call order `2, 1` and the
forward push `[1, 2]`. -/
theorem C3_counterexample :
    undo { undo_stack := [[1, 2]], redo_stack := [] } =
      ({ undo_stack := [], redo_stack := [[2, 1]] },
       [ActCall.undoCall 1, ActCall.undoCall 2]) ∧
    [ActCall.undoCall 1, ActCall.undoCall 2] ≠ [ActCall.undoCall 2, ActCall.undoCall 1] ∧
    ([[2, 1]] : List (List Act)) ≠ [[1, 2]] := by
  decide

/-! ## C4: push-then-undo inverse law -/

/-- **C4 amended**: pushing a one-element group through the
`netgraph.action` handler and then calling `undo()` restores the *undo
stack* to its exact pre-push state and (assuming the action's `undo()`
inverts its `apply()`) restores the graph state, but the *redo stack*
ends as the one-element stack holding the reversed group, not its
pre-push contents (which the push has cleared). -/
theorem C4_push_then_undo {σ : Type} (applyA undoA : Act → σ → σ) (s : CommandLog)
    (a : Act) (st : σ) (h : undoA a (applyA a st) = st) :
    (undo (dispatchAction s a)).1.undo_stack = s.undo_stack ∧
    (undo (dispatchAction s a)).1.redo_stack = [[a]] ∧
    (undo (dispatchAction s a)).2 = [ActCall.undoCall a] ∧
    runCalls applyA undoA (undo (dispatchAction s a)).2 (applyA a st) = st := by
  have hu : undo (dispatchAction s a) =
      ({ undo_stack := s.undo_stack, redo_stack := [[a]] }, [ActCall.undoCall a]) := by
    simp [dispatchAction, undo, undoLoop]
  refine ⟨by rw [hu], by rw [hu], by rw [hu], ?_⟩
  rw [hu]
  simp [runCalls, h]

/-- **C4 witness** at a concrete inverse pair over `Int`. -/
theorem C4_witness :
    (undo (dispatchAction { undo_stack := [], redo_stack := [] } 3)).1.undo_stack = [] ∧
    runCalls (fun (x : Act) (s : Int) => s + x) (fun (x : Act) (s : Int) => s - x)
      (undo (dispatchAction { undo_stack := [], redo_stack := [] } 3)).2
      ((fun (x : Act) (s : Int) => s + x) 3 5) = 5 := by
  have h := C4_push_then_undo (fun (x : Act) (s : Int) => s + x)
    (fun (x : Act) (s : Int) => s - x) { undo_stack := [], redo_stack := [] } 3 5 (by simp)
  exact ⟨h.1, h.2.2.2⟩

/-- **C4 counterexample**: from empty stacks, pushing the group `[0]`
and undoing it leaves the redo stack as `[[0]]`, so the command log is
not restored to its pre-push state. -/
theorem C4_counterexample :
    (undo (dispatchAction { undo_stack := [], redo_stack := [] } 0)).1 ≠
      ({ undo_stack := [], redo_stack := [] } : CommandLog) := by
  decide

/-! ## C5: redo invalidation -/

/-- **C5 confirmed**: for every state of the stacks, the
`netgraph.action` handler pushes exactly one new one-element group onto
the undo stack and empties the redo stack, and an immediately following
`redo()` changes neither stack and applies no action. -/
theorem C5_redo_invalidation (s : CommandLog) (a : Act) :
    dispatchAction s a =
      { undo_stack := s.undo_stack ++ [[a]], redo_stack := [] } ∧
    redo (dispatchAction s a) = (dispatchAction s a, []) := by
  exact ⟨rfl, by simp [dispatchAction, redo]⟩

/-! ## C6: commands on unknown targets -/

/-- **C6 amended**: `undo()` on an empty undo stack and `redo()` on an
empty redo stack change no state, replay no action and raise no error;
but `act_expand` with a uid not in the snapshot raises `KeyError` from
the unguarded `self.uids[uid]` lookup instead of being a no-op. -/
theorem C6_empty_noop_expand_raises (rs us : List (List Act)) (s : NG) (uid : String)
    (h : alistGet s.uids uid = none) :
    undo { undo_stack := [], redo_stack := rs } =
      ({ undo_stack := [], redo_stack := rs }, []) ∧
    redo { undo_stack := us, redo_stack := [] } =
      ({ undo_stack := us, redo_stack := [] }, []) ∧
    act_expand s uid = (s, some "KeyError") := by
  refine ⟨rfl, rfl, ?_⟩
  simp [act_expand, h]

/-- **C6 witness** at the empty session state and a fresh uid. -/
theorem C6_witness :
    undo { undo_stack := [], redo_stack := [[7]] } =
      ({ undo_stack := [], redo_stack := [[7]] }, []) ∧
    act_expand ngEmpty "a" = (ngEmpty, some "KeyError") := by
  have h := C6_empty_noop_expand_raises [[7]] [] ngEmpty "a" rfl
  exact ⟨h.1, h.2.2⟩

/-- **C6 counterexample**: `act_expand` on a uid absent from the
snapshot raises `KeyError` — the claim's "changes no state and raises no
error" fails on its `act_expand` half. -/
theorem C6_counterexample :
    (act_expand ngEmpty "missing").2 = some "KeyError" := by
  decide

/-! ## C9: the contents of `get_extra_info` -/

/-- **C9 amended**: a `Node` carries its dimensionality, a passthrough
flag present exactly when its output is `None` or an `OverriddenOutput`
with absent base output, and an html flag present exactly when its
output is callable with a rendering hook; an `Ensemble` carries its
dimensionality and neuron count; an object that is *neither* a `Node`
nor an `Ensemble` carries the default-display-output flag exactly when
its default output is non-absent (a `Node` or `Ensemble` never carries
it, because the check sits on an `elif` branch); every object carries
the display-target list. -/
theorem C9_extra_info_characterization (env : ValueEnv) (v : PyVal) :
    (get_extra_info env v).sp_targets = env.spTargets v ∧
    (∀ o : Obj, v = PyVal.obj o → o.cls = some NengoClass.node →
      (get_extra_info env v).dimensions = some o.size_out ∧
      ((get_extra_info env v).passthrough = some true ↔
        (o.output.isNone = true ∨
          (o.output.isOverridden = true ∧ o.output.baseOutputIsNone = true))) ∧
      ((get_extra_info env v).html = some true ↔
        (o.output.isCallable = true ∧ o.output.hasNengoHtml = true)) ∧
      (get_extra_info env v).n_neurons = none ∧
      (get_extra_info env v).default_output = none) ∧
    (∀ o : Obj, v = PyVal.obj o → o.cls = some NengoClass.ensemble →
      (get_extra_info env v).dimensions = some o.size_out ∧
      (get_extra_info env v).n_neurons = some o.n_neurons ∧
      (get_extra_info env v).passthrough = none ∧
      (get_extra_info env v).html = none ∧
      (get_extra_info env v).default_output = none) ∧
    (isinstanceC v NengoClass.node = false → isinstanceC v NengoClass.ensemble = false →
      (get_extra_info env v).default_output =
        (if env.hasDefaultOutput v then some true else none)) := by
  refine ⟨?_, ?_, ?_, ?_⟩
  · unfold get_extra_info
    repeat' split
    all_goals rfl
  · intro o hv hcls
    subst hv
    have h1 : isinstanceC (PyVal.obj o) NengoClass.node = true := by
      simp [isinstanceC, hcls]
    simp only [get_extra_info, h1]
    refine ⟨rfl, ?_, ?_, rfl, rfl⟩
    · by_cases hp : (o.output.isNone = true ∨
        (o.output.isOverridden = true ∧ o.output.baseOutputIsNone = true))
      · simp [hp]
      · simp [hp]
    · by_cases hh : (o.output.isCallable = true ∧ o.output.hasNengoHtml = true)
      · simp [hh]
      · simp [hh]
  · intro o hv hcls
    subst hv
    have h1 : isinstanceC (PyVal.obj o) NengoClass.node = false := by
      simp [isinstanceC, hcls]
    have h2 : isinstanceC (PyVal.obj o) NengoClass.ensemble = true := by
      simp [isinstanceC, hcls]
    simp only [get_extra_info, h1, h2]
    exact ⟨rfl, rfl, rfl, rfl, rfl⟩
  · intro h1 h2
    simp only [get_extra_info, h1, h2]
    by_cases hd : env.hasDefaultOutput v = true
    · simp [hd]
    · simp [hd]

/-- **C9 witness**: evaluated at a concrete ensemble and a concrete
connection with a default display output. -/
theorem C9_witness :
    (get_extra_info venv0 (PyVal.obj ens0)).n_neurons = some 10 ∧
    (get_extra_info venv0 (PyVal.obj conn0)).default_output = some true := by
  have h1 := C9_extra_info_characterization venv0 (PyVal.obj ens0)
  have h2 := C9_extra_info_characterization venv0 (PyVal.obj conn0)
  refine ⟨(h1.2.2.1 ens0 rfl rfl).2.1, ?_⟩
  have h3 := h2.2.2.2 (by decide) (by decide)
  simpa [venv0] using h3

/-- **C9 counterexample**: a `Node` whose default display output is
non-absent still carries no `default_output` key, so the claim that
*every* object carries the default-display-output flag is false. -/
theorem C9_counterexample :
    venv0.hasDefaultOutput (PyVal.obj node0) = true ∧
    (get_extra_info venv0 (PyVal.obj node0)).default_output = none := by
  decide

/-! ## C7: no-op reload on unchanged text -/

/-- **C7 amended**: a reload that reads the watched file and observes
text equal to the last *attempted* script (`self.page.code`) returns
immediately, changing nothing; but a reload whose text is supplied
explicitly as the `code` argument never takes the early return, even
when the supplied text is identical. -/
theorem C7_noop_only_on_file_path (st : NG) (inp : ReloadInput) (c : String)
    (h : st.exec.code = some inp.fileContents) :
    _reload st none inp = (st, ReloadResult.noUpdate) ∧
    (_reload st (some c) inp).2 ≠ ReloadResult.noUpdate := by
  constructor
  · simp [_reload, h]
  · unfold _reload
    simp only [reduceCtorEq, false_and, if_false]
    split
    · simp
    · split <;> simp

/-- **C7 witness**: the file path short-circuits at a concrete state
whose last execution succeeded, and the explicit path does not. -/
theorem C7_witness :
    _reload st7 none inp7 = (st7, ReloadResult.noUpdate) ∧
    (_reload st7 (some "X") inp7).2 ≠ ReloadResult.noUpdate :=
  C7_noop_only_on_file_path st7 inp7 "X" rfl

/-- **C7 counterexample**: the session last applied script `X`
successfully, yet a reload supplying the identical text `X` explicitly
re-executes it (the locals dict is replaced) instead of returning
immediately. -/
theorem C7_counterexample :
    st7.exec.code = some "X" ∧ st7.exec.lastGoodLocals = some st7.exec.localsId ∧
    (_reload st7 (some "X") inp7).2 = ReloadResult.completed ∧
    (_reload st7 (some "X") inp7).1.exec.localsId = 7 ∧ st7.exec.localsId = 1 := by
  decide

/-! ## C8: execution-failure atomicity -/

theorem execute_error_isSome (est : ExecState) (code : String) (einp : ExecInput) :
    ((execute est code einp).error).isSome = (einp.raised.isSome || !einp.modelIsNetwork) := by
  rcases einp with ⟨nl, r, m⟩
  cases r <;> cases m <;> simp [execute]

theorem execute_lastGood (est : ExecState) (code : String) (einp : ExecInput) :
    (execute est code einp).lastGoodLocals =
      (if einp.raised = none ∧ einp.modelIsNetwork = true then some einp.newLocals
       else est.lastGoodLocals) := by
  rcases einp with ⟨nl, r, m⟩
  cases r <;> cases m <;> simp [execute]

/-- **C8 confirmed**: when the script raises (or binds no
`nengo.Network` named `model`) during a reload that actually executes,
the reload ends right after execution in the `errored` state with the
error channel non-empty, and the uid snapshot, the parents map, the
component list and the last-good locals are exactly as before; moreover
`execute` updates the last-good locals exactly when the run was
error-free. -/
theorem C8_execution_failure_atomicity (st : NG) (codeArg : Option String)
    (inp : ReloadInput)
    (h : inp.execInput.raised.isSome = true ∨ inp.execInput.modelIsNetwork = false)
    (hrun : ¬(codeArg = none ∧ st.exec.code = some inp.fileContents)) :
    ((_reload st codeArg inp).2 = ReloadResult.errored ∧
     ((_reload st codeArg inp).1.exec.error).isSome = true ∧
     (_reload st codeArg inp).1.uids = st.uids ∧
     (_reload st codeArg inp).1.parents = st.parents ∧
     (_reload st codeArg inp).1.components = st.components ∧
     (_reload st codeArg inp).1.exec.lastGoodLocals = st.exec.lastGoodLocals) ∧
    (∀ (est : ExecState) (code2 : String) (einp : ExecInput),
      (execute est code2 einp).lastGoodLocals =
        (if einp.raised = none ∧ einp.modelIsNetwork = true then some einp.newLocals
         else est.lastGoodLocals)) := by
  refine ⟨?_, fun est code2 einp => execute_lastGood est code2 einp⟩
  have herr : ∀ code : String,
      ((execute st.exec code inp.execInput).error).isSome = true := by
    intro code
    rw [execute_error_isSome]
    rcases h with h | h
    · simp [h]
    · simp [h]
  have hlg : ∀ code : String,
      (execute st.exec code inp.execInput).lastGoodLocals = st.exec.lastGoodLocals := by
    intro code
    rw [execute_lastGood]
    rcases h with h | h
    · rcases hr : inp.execInput.raised with _ | tb
      · rw [hr] at h; simp at h
      · simp [hr]
    · simp [h]
  rcases codeArg with _ | c2
  · unfold _reload
    rw [if_neg hrun]
    simp [herr inp.fileContents, hlg inp.fileContents]
  · unfold _reload
    rw [if_neg hrun]
    simp [herr c2, hlg c2]

/-- **C8 witness**: a raising execution at a concrete state leaves the
snapshot and the last-good locals untouched. -/
theorem C8_witness :
    (_reload st7 (some "Z") inp8).2 = ReloadResult.errored ∧
    (_reload st7 (some "Z") inp8).1.uids = st7.uids ∧
    (_reload st7 (some "Z") inp8).1.exec.lastGoodLocals = st7.exec.lastGoodLocals := by
  have h := C8_execution_failure_atomicity st7 (some "Z") inp8 (Or.inl rfl) (by simp)
  exact ⟨h.1.1, h.1.2.2.1, h.1.2.2.2.2.2⟩

/-! ## C1: identity stability across a reconciliation pass -/

/-- **C1 (code bug)**: a previously known uid whose path no longer
evaluates against the new bindings is supposed to be retired with a
`remove` event; instead, the bare `except` leaves `new_item = None` and
the immediately following unguarded `name_finder[new_item]` lookup
raises `KeyError` (the Python `None` carries no name), aborting the
whole reload: no `remove` is emitted and the stale uid stays bound in
the snapshot, contradicting the code's own comment and the spec's
retire-and-recreate contract. -/
theorem C1_retire_crashes_on_failed_resolution :
    (_reload st1 (some "Y") inp1).2 = ReloadResult.crashed "KeyError" ∧
    alistGet (_reload st1 (some "Y") inp1).1.uids "model.a" = some (PyVal.obj ens0) ∧
    (_reload st1 (some "Y") inp1).1.to_be_sent = [] := by
  decide

/-! ## C2: reconnect correctness -/

/-- `bfsNets` only fills the parent cache and consumes the search queue:
the snapshot and the event queue pass through untouched. -/
theorem bfsNets_preserves (env : ReloadEnv) (names : PyVal → Option String)
    (uid : String) : ∀ (fuel : Nat) (st : NG),
    ((bfsNets env names uid fuel st).1).uids = st.uids ∧
    ((bfsNets env names uid fuel st).1).to_be_sent = st.to_be_sent := by
  intro fuel
  induction fuel with
  | zero => intro st; exact ⟨rfl, rfl⟩
  | succ n ih =>
      intro st
      unfold bfsNets
      repeat' split
      all_goals first
        | exact ⟨rfl, rfl⟩
        | exact ih _

/-- `get_parents` preserves the snapshot and the event queue. -/
theorem get_parents_preserves (env : ReloadEnv) (names : PyVal → Option String)
    (fuel : Nat) (st : NG) (uid : String) :
    ((get_parents env names fuel st uid).1).uids = st.uids ∧
    ((get_parents env names fuel st uid).1).to_be_sent = st.to_be_sent := by
  unfold get_parents
  rcases hb : bfsNets env names uid fuel st with ⟨st2, err⟩
  have hp := bfsNets_preserves env names uid fuel st
  rw [hb] at hp
  cases err
  · rcases hc : parentChain fuel st2.parents [uid] with ⟨chain, e2⟩
    cases e2 <;> simp_all
  · simp_all

/-- **C2 amended**: for a kept Connection whose four endpoint-uid
lookups succeed, a `reconnect` event is emitted iff the
source-normalized pre uid or post uid differs from the prior pass —
where the source normalization (`normPreCode` / `normPostCode`) unwraps
a `Neurons` handle to its owning ensemble and a `LearningRule` handle to
its governing connection's `post_obj` followed by one more `Neurons`
unwrap only: the `LearningRule` rule is *not* re-applied recursively.
In particular, two distinct handles that normalize to the same canonical
uid emit no `reconnect`; and when the uids differ, either an exception
escapes from the ancestor-chain computation or exactly one `reconnect`
event is appended with the `changed` flag set. -/
theorem C2_reconnect_iff_normalized_uid_change
    (env : ReloadEnv) (fuel : Nat) (st : NG) (uid : String) (old_item new_item : PyVal)
    (hconn : isinstanceC old_item NengoClass.connection = true)
    (a b c d : String)
    (h1 : uidOf env.pageNames (normPreCode env old_item) = Except.ok a)
    (h2 : uidOf env.pageNames (normPostCode env old_item) = Except.ok b)
    (h3 : uidOf env.newNames (normPreCode env new_item) = Except.ok c)
    (h4 : uidOf env.newNames (normPostCode env new_item) = Except.ok d) :
    (¬(c ≠ a ∨ d ≠ b) →
      reload_update_item env fuel st uid old_item new_item = (st, false, none)) ∧
    ((c ≠ a ∨ d ≠ b) →
      ∀ st' ch err, reload_update_item env fuel st uid old_item new_item = (st', ch, err) →
        err = none →
        ∃ pres posts,
          st'.to_be_sent = st.to_be_sent ++ [Event.reconnect uid pres posts] ∧
          ch = true) := by
  have hno : isinstanceC old_item NengoClass.node = false := by
    rcases old_item with _ | o | p | p | p <;> simp_all [isinstanceC]
  have hens : isinstanceC old_item NengoClass.ensemble = false := by
    rcases old_item with _ | o | p | p | p <;> simp_all [isinstanceC]
  have hnet : isinstanceC old_item NengoClass.network = false := by
    rcases old_item with _ | o | p | p | p <;> simp_all [isinstanceC]
  constructor
  · intro hne
    push_neg at hne
    simp [reload_update_item, hno, hens, hnet, hconn, h1, h2, h3, h4, hne.1, hne.2]
  · intro hcd st' ch err heq herrnone
    rcases hg1 : get_parents env env.newNames fuel st c with ⟨stA, r1⟩
    have p1 := (get_parents_preserves env env.newNames fuel st c).2
    rw [hg1] at p1
    cases r1 with
    | error e =>
        have hval : reload_update_item env fuel st uid old_item new_item =
            (stA, false, some e) := by
          simp [reload_update_item, hno, hens, hnet, hconn, h1, h2, h3, h4, hcd, hg1]
        rw [hval] at heq
        cases heq
        exact absurd herrnone (by simp)
    | ok presFull =>
        rcases hg2 : get_parents env env.newNames fuel stA d with ⟨stB, r2⟩
        have p2 := (get_parents_preserves env env.newNames fuel stA d).2
        rw [hg2] at p2
        cases r2 with
        | error e =>
            have hval : reload_update_item env fuel st uid old_item new_item =
                (stB, false, some e) := by
              simp [reload_update_item, hno, hens, hnet, hconn, h1, h2, h3, h4, hcd,
                hg1, hg2]
            rw [hval] at heq
            cases heq
            exact absurd herrnone (by simp)
        | ok postsFull =>
            have hval : reload_update_item env fuel st uid old_item new_item =
                ({ stB with to_be_sent := stB.to_be_sent ++
                    [Event.reconnect uid presFull.dropLast postsFull.dropLast] },
                 true, none) := by
              simp [reload_update_item, hno, hens, hnet, hconn, h1, h2, h3, h4, hcd,
                hg1, hg2]
            rw [hval] at heq
            cases heq
            have p1h : stA.to_be_sent = st.to_be_sent := by simpa using p1
            have p2h : stB.to_be_sent = stA.to_be_sent := by simpa using p2
            exact ⟨presFull.dropLast, postsFull.dropLast, by simp [p2h, p1h], rfl⟩

/-- **C2 witness**: a kept connection whose endpoints are unchanged
plain objects emits nothing and leaves the state untouched. -/
theorem C2_witness :
    reload_update_item env2 5 st2 "conn0" (PyVal.obj newConn) (PyVal.obj newConn) =
      (st2, false, none) := by
  have h := C2_reconnect_iff_normalized_uid_change env2 5 st2 "conn0"
    (PyVal.obj newConn) (PyVal.obj newConn) (by decide) "a" "b" "a" "b"
    rfl rfl rfl rfl
  exact h.1 (by simp)

/-- **C2 counterexample**: the old post endpoint is a learning rule
whose governing connection's `post_obj` is *again* a learning rule; the
claim's recursive normalization resolves both old and new post
endpoints to the same canonical ensemble `bEns` (uid `b` in both
passes), and the pre endpoints are identical, so the claim demands no
`reconnect` — yet the pass emits one, because the source unwraps the
learning rule only once and compares the leftover handle's uid `my_lr`
against `b`. -/
theorem C2_counterexample :
    specNormalizeEndpoint env2 9 (env2.post_obj (PyVal.obj oldConn)) =
      some (PyVal.obj bEns) ∧
    specNormalizeEndpoint env2 9 (env2.post_obj (PyVal.obj newConn)) =
      some (PyVal.obj bEns) ∧
    specNormalizeEndpoint env2 9 (env2.pre_obj (PyVal.obj oldConn)) =
      some (PyVal.obj aEns) ∧
    specNormalizeEndpoint env2 9 (env2.pre_obj (PyVal.obj newConn)) =
      some (PyVal.obj aEns) ∧
    env2.pageNames (PyVal.obj bEns) = some "b" ∧
    env2.newNames (PyVal.obj bEns) = some "b" ∧
    env2.pageNames (PyVal.obj aEns) = some "a" ∧
    env2.newNames (PyVal.obj aEns) = some "a" ∧
    st2.to_be_sent = [] ∧
    (reload_update_item env2 5 st2 "conn0"
        (PyVal.obj oldConn) (PyVal.obj newConn)).1.to_be_sent =
      [Event.reconnect "conn0" ["a"] ["b"]] := by
  decide

/-! ## C10: creation is idempotent on known uids -/

/-- After a successful uid lookup, the label computation of
`create_object` cannot raise: either the object carries an explicit
label, or its name is the uid just found. -/
theorem labelOf_ok_of_named (names : PyVal → Option String) (v : PyVal) (uid : String)
    (hn : names v = some uid) : ∃ l, labelOf names v = Except.ok l := by
  unfold labelOf
  rcases hp : pyLabel v with _ | a
  · rw [hn]
    exact ⟨_, rfl⟩
  · exact ⟨_, rfl⟩

/-- A `create_object` call that does not return early binds the object's
uid in the snapshot. -/
theorem create_object_binds (env : ReloadEnv) (st : NG) (obj : PyVal) (ty : String)
    (parent : Option String) (r : Rat × Rat) (uid : String)
    (hn : env.pageNames obj = some uid) (hg : alistGet st.uids uid = none) :
    alistGet ((create_object env st obj ty parent r).1).uids uid = some obj := by
  obtain ⟨l, hl⟩ := labelOf_ok_of_named env.pageNames obj uid hn
  unfold create_object
  rw [hn, hl]
  simp only [hg, Option.isSome_none, Bool.false_eq_true, if_false]
  repeat' split
  all_goals simp [alistGet_set]

/-- A `create_connection` call that passes its endpoint lookups binds
the connection's uid in the snapshot, whether or not the ancestor-chain
computation later raises. -/
theorem create_connection_binds (env : ReloadEnv) (fuel : Nat) (st : NG) (conn : PyVal)
    (pc : Option String) (uid p q : String)
    (hn : env.pageNames conn = some uid) (hg : alistGet st.uids uid = none)
    (hp : env.pageNames (normPreCode env conn) = some p)
    (hq : env.pageNames (normPostCreate env conn) = some q) :
    alistGet ((create_connection env fuel st conn pc).1).uids uid = some conn := by
  unfold create_connection
  rw [hn]
  simp only [hg, hp, hq, Option.isSome_none, Bool.false_eq_true, if_false]
  have hA := (get_parents_preserves env env.pageNames fuel
    { st with uids := alistSet st.uids uid conn } p).1
  rcases hg1 : get_parents env env.pageNames fuel
      { st with uids := alistSet st.uids uid conn } p with ⟨stA, r1⟩
  rw [hg1] at hA
  cases r1 with
  | error e =>
      simp at hA
      rw [hA]
      exact alistGet_set _ _ _
  | ok presFull =>
      have hB := (get_parents_preserves env env.pageNames fuel stA q).1
      rcases hg2 : get_parents env env.pageNames fuel stA q with ⟨stB, r2⟩
      rw [hg2] at hB
      simp at hA hB
      cases r2 with
      | error e =>
          rw [hB, hA]
          exact alistGet_set _ _ _
      | ok postsFull =>
          simp only []
          rw [hB, hA]
          exact alistGet_set _ _ _

/-- **C10 confirmed**: a `create_object` (resp. `create_connection`)
call whose uid is already a key of the snapshot returns immediately,
writing no event and changing nothing; and for every starting state,
calling either function twice for the same object leaves exactly the
state of a single call. -/
theorem C10_creation_idempotent (env : ReloadEnv) (st : NG) (obj conn : PyVal)
    (ty : String) (parent pc : Option String) (r1 r2 : Rat × Rat) (fuel1 fuel2 : Nat) :
    (∀ uid, env.pageNames obj = some uid → (alistGet st.uids uid).isSome = true →
      create_object env st obj ty parent r1 = (st, none)) ∧
    (∀ uid, env.pageNames conn = some uid → (alistGet st.uids uid).isSome = true →
      create_connection env fuel1 st conn pc = (st, none)) ∧
    (create_object env (create_object env st obj ty parent r1).1 obj ty parent r2).1 =
      (create_object env st obj ty parent r1).1 ∧
    (create_connection env fuel2 (create_connection env fuel1 st conn pc).1 conn pc).1 =
      (create_connection env fuel1 st conn pc).1 := by
  refine ⟨?_, ?_, ?_, ?_⟩
  · intro uid hn hs
    simp [create_object, hn, hs]
  · intro uid hn hs
    simp [create_connection, hn, hs]
  · cases hn : env.pageNames obj with
    | none => simp [create_object, hn]
    | some uid =>
        cases hg : alistGet st.uids uid with
        | some x =>
            have h1 : create_object env st obj ty parent r1 = (st, none) := by
              simp [create_object, hn, hg]
            rw [h1]
            simp [create_object, hn, hg]
        | none =>
            have hb := create_object_binds env st obj ty parent r1 uid hn hg
            set st1 := (create_object env st obj ty parent r1).1 with hst1
            simp [create_object, hn, hb]
  · cases hn : env.pageNames conn with
    | none => simp [create_connection, hn]
    | some uid =>
        cases hg : alistGet st.uids uid with
        | some x =>
            have h1 : create_connection env fuel1 st conn pc = (st, none) := by
              simp [create_connection, hn, hg]
            rw [h1]
            simp [create_connection, hn, hg]
        | none =>
            cases hp : env.pageNames (normPreCode env conn) with
            | none =>
                have h1 : create_connection env fuel1 st conn pc =
                    (st, some "KeyError") := by
                  simp [create_connection, hn, hg, hp]
                rw [h1]
                simp [create_connection, hn, hg, hp]
            | some p =>
                cases hq : env.pageNames (normPostCreate env conn) with
                | none =>
                    have h1 : create_connection env fuel1 st conn pc =
                        (st, some "KeyError") := by
                      simp [create_connection, hn, hg, hp, hq]
                    rw [h1]
                    simp [create_connection, hn, hg, hp, hq]
                | some q =>
                    have hb := create_connection_binds env fuel1 st conn pc uid p q
                      hn hg hp hq
                    set st1 := (create_connection env fuel1 st conn pc).1 with hst1
                    simp [create_connection, hn, hb]

/-- **C10 witness**: at a concrete session already exposing the
ensemble `ens0` (uid `e`) and connection `conn0` (uid `c`), both
creation calls are no-ops. -/
theorem C10_witness :
    create_object env4 stw (PyVal.obj ens0) "ens" none (0, 0) = (stw, none) ∧
    create_connection env4 3 stw (PyVal.obj conn0) none = (stw, none) := by
  have h := C10_creation_idempotent env4 stw (PyVal.obj ens0) (PyVal.obj conn0)
    "ens" none none (0, 0) (0, 0) 3 3
  exact ⟨h.1 "e" rfl (by decide), h.2.1 "c" rfl (by decide)⟩
